import Mathlib

/-!
Verification development for the TRELLIS Flask API server (src/api/server.py).
The file embeds the streaming generator generate_frames_impl, the /generate
route handler and the /generate_zip route handler, at the level of the byte
strings they yield, the per-request workspace directory lifecycle, and the
arguments of every call into the inference model.  External collaborators
(PIL, rembg, the pipeline, the renderers) are modelled by an environment that
says whether each call raises and what bytes the exporters produce.
-/

/-- Mode and pixel data of a PIL image, as far as the server inspects it. -/
structure Image where
  mode : String
  data : String

/-- Environment of one request: the uploaded image as decoded, the
background-removal function, whether each fallible external call raises (and
the message of the exception it raises), and the bytes the video and mesh
exporters put on disk. -/
structure Env where
  inputImage : Image
  removeFn : Image → Image
  makedirsRaises : Bool
  makedirsMsg : String
  openRaises : Bool
  openMsg : String
  removeRaises : Bool
  removeMsg : String
  pipeRunRaises : Bool
  pipeMsg : String
  renderRaises : Bool
  renderMsg : String
  glbRaises : Bool
  glbMsg : String
  videoBytes : String
  glbBytes : String

/-- A lowercase hexadecimal digit. -/
def hexDigitChar (n : Nat) : Char :=
  if n < 10 then Char.ofNat (48 + n) else Char.ofNat (87 + n)

/-- Four lowercase hexadecimal digits. -/
def hex4 (n : Nat) : String :=
  String.mk [hexDigitChar (n / 4096 % 16), hexDigitChar (n / 256 % 16),
    hexDigitChar (n / 16 % 16), hexDigitChar (n % 16)]

/-- Escaping of one character by json.dumps with ensure_ascii, the default:
quote, backslash and control characters get short escapes, every character
outside printable ASCII becomes a \u escape, above the basic plane a
surrogate pair. -/
def pyEscapeChar (c : Char) : String :=
  if c = '"' then "\\\""
  else if c = '\\' then "\\\\"
  else if c = '\n' then "\\n"
  else if c = '\r' then "\\r"
  else if c = '\t' then "\\t"
  else if c.toNat = 8 then "\\b"
  else if c.toNat = 12 then "\\f"
  else if c.toNat < 32 ∨ (127 ≤ c.toNat ∧ c.toNat < 65536) then "\\u" ++ hex4 c.toNat
  else if 65536 ≤ c.toNat then
    "\\u" ++ hex4 (55296 + (c.toNat - 65536) / 1024) ++
      "\\u" ++ hex4 (56320 + (c.toNat - 65536) % 1024)
  else String.mk [c]

/-- Encoding of a string literal by json.dumps. -/
def pyJsonStr (s : String) : String :=
  "\"" ++ String.join (s.toList.map pyEscapeChar) ++ "\""

/-- Encoding by json.dumps of an object whose values are strings, with the
default separators and keys in insertion order. -/
def pyDumps (kvs : List (String × String)) : String :=
  "\x7b" ++ String.intercalate ", " (kvs.map (fun kv => pyJsonStr kv.1 ++ ": " ++ pyJsonStr kv.2))
    ++ "\x7d"

/-- Boundary token of the multipart stream (line 33 of the source). -/
def BOUNDARY : String := "frame"

/-- One multipart frame carrying a JSON payload: boundary line, content type,
blank line, the payload, frame terminator. -/
def jsonEventChunk (kvs : List (String × String)) : String :=
  "--" ++ BOUNDARY ++ "\r\nContent-Type: application/json\r\n\r\n" ++ pyDumps kvs ++ "\r\n"

/-- Frame built by send_progress_update (lines 35 to 44). -/
def send_progress_update (step message : String) : String :=
  jsonEventChunk [("status", "progress"), ("step", step), ("message", message)]

/-- Frame built by send_error_update (lines 46 to 55). -/
def send_error_update (step message : String) : String :=
  jsonEventChunk [("status", "error"), ("step", step), ("message", message)]

/-- Frame built by send_file (lines 57 to 68): headers carrying the MIME type
and download filename, then the raw file bytes, then the frame terminator. -/
def send_file (file_bytes mime_type filename : String) : String :=
  "--" ++ BOUNDARY ++ "\r\nContent-Type: " ++ mime_type ++
    "\r\nContent-Disposition: attachment; filename=\"" ++ filename ++ "\"\r\n\r\n" ++
    file_bytes ++ "\r\n"

/-- The completion frame (lines 136 to 141): status complete, no step key. -/
def completeChunk : String :=
  jsonEventChunk [("status", "complete"), ("message", "All files generated.")]

/-- The well-formed stream terminator frame, yielded at line 142. -/
def terminatorChunk : String := "--" ++ BOUNDARY ++ "--\r\n"

/-- The trailer appended by the except clause at line 152.  That line is a
plain string literal, not an f-string, so the characters of the text BOUNDARY
between braces appear verbatim instead of the boundary token. -/
def badTerminator : String := "--\x7bBOUNDARY\x7d--\r\n"

/-- The single chunk yielded by the except clause of generate_frames_impl
(lines 144 to 153): an error frame for step Streaming followed by the
uninterpolated trailer. -/
def fatalChunk (msg : String) : String :=
  jsonEventChunk [("status", "error"), ("step", "Streaming"),
    ("message", "Unhandled exception during generation: " ++ msg)] ++ badTerminator

/-- State of one run of the generator: the chunks yielded so far, how many
more chunks the consumer will accept (none means it consumes everything),
whether the workspace directory was created and whether it currently exists,
and the argument list of every pipe.run call made so far. -/
structure GenState where
  yields : List String
  budget : Option Nat
  dirCreated : Bool
  dirExists : Bool
  calls : List (Image × Nat)

/-- Reason a generator body stops before its end: an ordinary exception,
which an except Exception clause catches, or GeneratorExit from a consumer
that closed the stream, which except Exception does not catch. -/
inductive PyExit where
  | exc (msg : String)
  | genExit

/-- Yield one chunk.  With budget none the chunk is delivered.  With a
positive budget the chunk is delivered and, when that exhausts the budget,
GeneratorExit is raised at this yield because the consumer closes.  With
budget zero the yield raises GeneratorExit at once. -/
def emitChunk (s : GenState) (c : String) : GenState × Option PyExit :=
  match s.budget with
  | none => ({ s with yields := s.yields ++ [c] }, none)
  | some 0 => (s, some PyExit.genExit)
  | some (n + 1) =>
    let s2 := { s with yields := s.yields ++ [c], budget := some n }
    if n = 0 then (s2, some PyExit.genExit) else (s2, none)

/-- Sequencing of generator steps that stops at the first raised exit. -/
def runStep (r : GenState × Option PyExit) (f : GenState → GenState × Option PyExit) :
    GenState × Option PyExit :=
  match r with
  | (s, some e) => (s, some e)
  | (s, none) => f s

/-- The image handed to pipe.run: the upload as decoded, passed through rembg
remove exactly when its mode is not RGBA (lines 91 and 92). -/
def preprocessedImage (env : Env) : Image :=
  if env.inputImage.mode == "RGBA" then env.inputImage else env.removeFn env.inputImage

/-- Lines 104 to 114: the try block around video rendering.  On success the
video file frame is yielded and then the Turntable video complete progress
frame; on failure only the error frame, and the body continues. -/
def videoBlock (env : Env) (s : GenState) : GenState × Option PyExit :=
  if env.renderRaises then
    emitChunk s (send_error_update "Rendering Video"
      ("Failed to render turntable video: " ++ env.renderMsg))
  else
    runStep (emitChunk s (send_file env.videoBytes "video/mp4" "preview.mp4")) fun s2 =>
      emitChunk s2 (send_progress_update "Rendering Video" "Turntable video complete.")

/-- Lines 119 to 132: the try block around GLB export.  On success the GLB
meshed progress frame is yielded first and the GLB file frame after it
(lines 127 and 128); on failure only the error frame. -/
def glbBlock (env : Env) (s : GenState) : GenState × Option PyExit :=
  if env.glbRaises then
    emitChunk s (send_error_update "Generating GLB"
      ("Failed to generate GLB mesh: " ++ env.glbMsg))
  else
    runStep (emitChunk s (send_progress_update "Generating GLB" "GLB meshed.")) fun s2 =>
      emitChunk s2 (send_file env.glbBytes "application/octet-stream" "output.glb")

/-- Lines 74 to 142: the try block of generate_frames_impl. -/
def genBody (env : Env) (s : GenState) : GenState × Option PyExit :=
  runStep (emitChunk s (send_progress_update "Preprocessing" "Preparing image...")) fun s =>
  runStep (if env.makedirsRaises then (s, some (PyExit.exc env.makedirsMsg))
    else ({ s with dirCreated := true, dirExists := true }, none)) fun s =>
  runStep (if env.openRaises then (s, some (PyExit.exc env.openMsg)) else (s, none)) fun s =>
  runStep (if env.removeRaises && !(env.inputImage.mode == "RGBA") then
    (s, some (PyExit.exc env.removeMsg)) else (s, none)) fun s =>
  runStep (emitChunk s (send_progress_update "Preprocessing" "Image processed.")) fun s =>
  runStep (emitChunk s (send_progress_update "Rendering Video" "Starting asset generation.")) fun s =>
  runStep (if env.pipeRunRaises then
      ({ s with calls := s.calls ++ [(preprocessedImage env, 0)] }, some (PyExit.exc env.pipeMsg))
    else ({ s with calls := s.calls ++ [(preprocessedImage env, 0)] }, none)) fun s =>
  runStep (emitChunk s (send_progress_update "Rendering Video" "Cooking up a preliminary video...")) fun s =>
  runStep (videoBlock env s) fun s =>
  runStep (emitChunk s (send_progress_update "Generating GLB" "Generating GLB mesh...")) fun s =>
  runStep (glbBlock env s) fun s =>
  runStep (emitChunk s completeChunk) fun s =>
  emitChunk s terminatorChunk

/-- Lines 144 to 153: the except Exception clause, yielding one chunk made of
a Streaming error frame and the uninterpolated trailer.  GeneratorExit is not
an Exception, so it passes through. -/
def handleFatal (r : GenState × Option PyExit) : GenState :=
  match r with
  | (s, some (PyExit.exc m)) => (emitChunk s (fatalChunk m)).1
  | (s, _) => s

/-- Lines 154 to 156: the finally clause, removing the workspace directory
when it exists. -/
def runFinally (s : GenState) : GenState :=
  if s.dirExists then { s with dirExists := false } else s

/-- The generator generate_frames_impl (lines 71 to 156), run against an
environment until the consumer stops accepting chunks or the body ends. -/
def generate_frames_impl (env : Env) (budget : Option Nat) : GenState :=
  runFinally (handleFatal (genBody env
    { yields := [], budget := budget, dirCreated := false, dirExists := false, calls := [] }))

/-- Response of the /generate route: an early plain HTTP response, or the
streamed multipart response. -/
inductive GenResponse where
  | early (status : Nat) (respBody : String)
  | stream (g : GenState)

/-- Outcome of one /generate request: the response, whether the per-request
workspace was ever created, and whether it still exists once the response has
finished. -/
structure HttpOutcome where
  response : GenResponse
  workspaceCreated : Bool
  workspaceExistsAfter : Bool

/-- An upload as the route handlers see it: whether the form data has a file
part, its filename, and whether reading the upload raises. -/
structure Request where
  hasFile : Bool
  filename : String
  readRaises : Bool
  readMsg : String

/-- Lines 159 to 192: the /generate route handler. -/
def generate (pipeLoaded : Bool) (req : Request) (env : Env) (budget : Option Nat) :
    HttpOutcome :=
  if !pipeLoaded then
    { response := GenResponse.early 503 "Model not loaded. Check server logs.",
      workspaceCreated := false, workspaceExistsAfter := false }
  else if !req.hasFile || req.filename == "" then
    { response := GenResponse.early 400 (pyDumps [("status", "error"), ("step", "Initialization"),
        ("message", "No image uploaded or filename empty. Please include a file in your request.")]),
      workspaceCreated := false, workspaceExistsAfter := false }
  else if req.readRaises then
    { response := GenResponse.early 500 (pyDumps [("status", "error"), ("step", "Initialization"),
        ("message", "Error processing request: " ++ req.readMsg)]),
      workspaceCreated := false, workspaceExistsAfter := false }
  else
    { response := GenResponse.stream (generate_frames_impl env budget),
      workspaceCreated := (generate_frames_impl env budget).dirCreated,
      workspaceExistsAfter := (generate_frames_impl env budget).dirExists }

/-- Outcome of the /generate_zip route: 503, 400, a 200 zip response with its
archive entries, or an exception escaping the handler, which the framework
turns into an error response with no archive. -/
inductive ZipOutcome where
  | notLoaded
  | badRequest (respBody : String)
  | success (entries : List (String × String))
  | unhandled (msg : String)

/-- Result of one /generate_zip request: the outcome, the workspace directory
lifecycle flags, and the pipe.run calls made. -/
structure ZipResult where
  outcome : ZipOutcome
  dirCreated : Bool
  dirExists : Bool
  calls : List (Image × Nat)

/-- Lines 238 to 240: the finally clause, rmtree with ignore_errors. -/
def zipFinally (r : ZipResult) : ZipResult := { r with dirExists := false }

/-- Lines 209 to 237: the try block of generate_zip.  There is no per-stage
try, so the first raising call aborts the whole handler. -/
def zipBody (env : Env) : ZipResult :=
  if env.openRaises then
    { outcome := ZipOutcome.unhandled env.openMsg, dirCreated := true, dirExists := true,
      calls := [] }
  else if env.removeRaises && !(env.inputImage.mode == "RGBA") then
    { outcome := ZipOutcome.unhandled env.removeMsg, dirCreated := true, dirExists := true,
      calls := [] }
  else if env.pipeRunRaises then
    { outcome := ZipOutcome.unhandled env.pipeMsg, dirCreated := true, dirExists := true,
      calls := [(preprocessedImage env, 0)] }
  else if env.renderRaises then
    { outcome := ZipOutcome.unhandled env.renderMsg, dirCreated := true, dirExists := true,
      calls := [(preprocessedImage env, 0)] }
  else if env.glbRaises then
    { outcome := ZipOutcome.unhandled env.glbMsg, dirCreated := true, dirExists := true,
      calls := [(preprocessedImage env, 0)] }
  else
    { outcome := ZipOutcome.success [("preview.mp4", env.videoBytes), ("output.glb", env.glbBytes)],
      dirCreated := true, dirExists := true, calls := [(preprocessedImage env, 0)] }

/-- Lines 194 to 240: the /generate_zip route handler.  The upload is read
and the workspace created before the try, so failures there escape without
the finally cleanup applying; afterwards the finally always runs. -/
def generate_zip (pipeLoaded : Bool) (req : Request) (env : Env) : ZipResult :=
  if !pipeLoaded then
    { outcome := ZipOutcome.notLoaded, dirCreated := false, dirExists := false, calls := [] }
  else if !req.hasFile || req.filename == "" then
    { outcome := ZipOutcome.badRequest (pyDumps [("status", "error"), ("step", "Initialization"),
        ("message", "No image uploaded or filename empty.")]),
      dirCreated := false, dirExists := false, calls := [] }
  else if req.readRaises then
    { outcome := ZipOutcome.unhandled req.readMsg, dirCreated := false, dirExists := false,
      calls := [] }
  else if env.makedirsRaises then
    { outcome := ZipOutcome.unhandled env.makedirsMsg, dirCreated := false, dirExists := false,
      calls := [] }
  else zipFinally (zipBody env)

/-- Whether needle occurs as a contiguous run inside hay. -/
def listContainsInfix (needle : List Char) : List Char → Bool
  | [] => needle.isEmpty
  | c :: t => needle.isPrefixOf (c :: t) || listContainsInfix needle t

/-- Whether needle occurs as a contiguous substring of hay. -/
def strContains (hay needle : String) : Bool := listContainsInfix needle.toList hay.toList

/-- Classification of every chunk the generator can yield: a JSON event frame
whose payload is an object of one of the documented shapes (status progress
or error with a step and a message, or status complete with a message only),
the fatal Streaming error frame with its trailer, a file frame, or the stream
terminator frame. -/
def okChunk (y : String) : Prop :=
  (∃ s m, y = jsonEventChunk [("status", "progress"), ("step", s), ("message", m)]) ∨
  (∃ s m, y = jsonEventChunk [("status", "error"), ("step", s), ("message", m)]) ∨
  (y = jsonEventChunk [("status", "complete"), ("message", "All files generated.")]) ∨
  (∃ m, y = jsonEventChunk [("status", "error"), ("step", "Streaming"), ("message", m)]
    ++ badTerminator) ∨
  (∃ b mt f, y = send_file b mt f) ∨
  y = terminatorChunk

/-- All chunks yielded so far satisfy the chunk classification. -/
def yieldsOk (s : GenState) : Prop := ∀ y ∈ s.yields, okChunk y

/-- A sample non-RGBA upload. -/
def imgSample : Image := { mode := "RGB", data := "pixels" }

/-- An environment in which every external call succeeds. -/
def envAllOk : Env :=
  { inputImage := imgSample,
    removeFn := fun i => { mode := "RGBA", data := i.data },
    makedirsRaises := false, makedirsMsg := "",
    openRaises := false, openMsg := "",
    removeRaises := false, removeMsg := "",
    pipeRunRaises := false, pipeMsg := "",
    renderRaises := false, renderMsg := "",
    glbRaises := false, glbMsg := "",
    videoBytes := "VIDEOBYTES", glbBytes := "GLBBYTES" }

/-- Environment whose inference call raises. -/
def envPipeFail : Env := { envAllOk with pipeRunRaises := true, pipeMsg := "boom" }

/-- Environment whose workspace creation raises. -/
def envMakedirsFail : Env := { envAllOk with makedirsRaises := true, makedirsMsg := "mkdir failed" }

/-- Environment whose video rendering raises. -/
def envVideoFail : Env := { envAllOk with renderRaises := true, renderMsg := "render boom" }

/-- Environment where both export stages raise. -/
def envBothExportsFail : Env := { envVideoFail with glbRaises := true, glbMsg := "glb boom" }

/-- A well-formed upload. -/
def reqValid : Request := { hasFile := true, filename := "cat.png", readRaises := false, readMsg := "" }

/-- An upload with no file part. -/
def reqNoFile : Request := { hasFile := false, filename := "cat.png", readRaises := false, readMsg := "" }

/-! Helper lemmas about the workspace lifecycle. -/

theorem runFinally_dirExists (s : GenState) : (runFinally s).dirExists = false := by
  unfold runFinally
  cases h : s.dirExists <;> simp [h]

theorem generate_frames_impl_dirExists (env : Env) (budget : Option Nat) :
    (generate_frames_impl env budget).dirExists = false := by
  unfold generate_frames_impl
  exact runFinally_dirExists _

theorem generate_zip_dirExists (pl : Bool) (req : Request) (env : Env) :
    (generate_zip pl req env).dirExists = false := by
  unfold generate_zip zipFinally
  repeat' first | rfl | split

/-- C3: for every request to /generate or /generate_zip, on every exit path
(normal completion, non-fatal stage failure, fatal exception, early consumer
close, and the early HTTP error responses), the per-request workspace
directory does not exist after the response finishes. -/
theorem workspace_removed_on_every_path (pl : Bool) (req : Request) (env : Env)
    (budget : Option Nat) :
    (generate pl req env budget).workspaceExistsAfter = false ∧
    (generate_zip pl req env).dirExists = false := by
  constructor
  · unfold generate
    repeat' first | rfl | exact generate_frames_impl_dirExists env budget | split
  · exact generate_zip_dirExists pl req env

/-- Full-consumption trace of the generator when the fatal stages (workspace
creation, preprocessing, inference) all succeed: the four leading progress
frames, the video block frames, the GLB starting progress frame, the GLB
block frames, the completion frame and the terminator frame; and pipe.run is
called exactly once, with the preprocessed image and seed 0. -/
theorem generate_frames_trace (env : Env)
    (h1 : env.makedirsRaises = false) (h2 : env.openRaises = false)
    (h3 : (env.removeRaises && !(env.inputImage.mode == "RGBA")) = false)
    (h4 : env.pipeRunRaises = false) :
    (generate_frames_impl env none).yields =
      [send_progress_update "Preprocessing" "Preparing image...",
       send_progress_update "Preprocessing" "Image processed.",
       send_progress_update "Rendering Video" "Starting asset generation.",
       send_progress_update "Rendering Video" "Cooking up a preliminary video..."] ++
      (if env.renderRaises then
        [send_error_update "Rendering Video" ("Failed to render turntable video: " ++ env.renderMsg)]
      else
        [send_file env.videoBytes "video/mp4" "preview.mp4",
         send_progress_update "Rendering Video" "Turntable video complete."]) ++
      [send_progress_update "Generating GLB" "Generating GLB mesh..."] ++
      (if env.glbRaises then
        [send_error_update "Generating GLB" ("Failed to generate GLB mesh: " ++ env.glbMsg)]
      else
        [send_progress_update "Generating GLB" "GLB meshed.",
         send_file env.glbBytes "application/octet-stream" "output.glb"]) ++
      [completeChunk, terminatorChunk] ∧
    (generate_frames_impl env none).calls = [(preprocessedImage env, 0)] := by
  cases h5 : env.renderRaises <;> cases h6 : env.glbRaises <;>
    constructor <;>
      simp [generate_frames_impl, genBody, videoBlock, glbBlock, emitChunk, runStep,
        handleFatal, runFinally, h1, h2, h3, h4, h5, h6]

/-- C2 counterexample: in an all-success run the full trace shows the GLB
file frame emitted after the GLB stage's concluding done progress frame
(GLB meshed.), so the file-before-done ordering claimed for both stages fails
for the GLB stage.  The index comparison makes the ordering explicit. -/
theorem glb_file_emitted_after_done_progress :
    (generate_frames_impl envAllOk none).yields =
      [send_progress_update "Preprocessing" "Preparing image...",
       send_progress_update "Preprocessing" "Image processed.",
       send_progress_update "Rendering Video" "Starting asset generation.",
       send_progress_update "Rendering Video" "Cooking up a preliminary video...",
       send_file "VIDEOBYTES" "video/mp4" "preview.mp4",
       send_progress_update "Rendering Video" "Turntable video complete.",
       send_progress_update "Generating GLB" "Generating GLB mesh...",
       send_progress_update "Generating GLB" "GLB meshed.",
       send_file "GLBBYTES" "application/octet-stream" "output.glb",
       completeChunk, terminatorChunk] ∧
    (generate_frames_impl envAllOk none).yields.indexOf
        (send_progress_update "Generating GLB" "GLB meshed.") <
      (generate_frames_impl envAllOk none).yields.indexOf
        (send_file "GLBBYTES" "application/octet-stream" "output.glb") := by
  exact ⟨rfl, by decide⟩

/-- C2 amended: when every stage succeeds, the video File frame is emitted
immediately before the video stage's done progress frame, but the GLB stage
emits its concluding done progress frame (GLB meshed.) immediately before its
File frame, so the file-before-done ordering holds only for the video
stage. -/
theorem export_file_event_ordering (env : Env)
    (h1 : env.makedirsRaises = false) (h2 : env.openRaises = false)
    (h3 : (env.removeRaises && !(env.inputImage.mode == "RGBA")) = false)
    (h4 : env.pipeRunRaises = false)
    (h5 : env.renderRaises = false) (h6 : env.glbRaises = false) :
    (generate_frames_impl env none).yields =
      [send_progress_update "Preprocessing" "Preparing image...",
       send_progress_update "Preprocessing" "Image processed.",
       send_progress_update "Rendering Video" "Starting asset generation.",
       send_progress_update "Rendering Video" "Cooking up a preliminary video...",
       send_file env.videoBytes "video/mp4" "preview.mp4",
       send_progress_update "Rendering Video" "Turntable video complete.",
       send_progress_update "Generating GLB" "Generating GLB mesh...",
       send_progress_update "Generating GLB" "GLB meshed.",
       send_file env.glbBytes "application/octet-stream" "output.glb",
       completeChunk, terminatorChunk] := by
  have h := (generate_frames_trace env h1 h2 h3 h4).1
  rw [h, h5, h6]
  simp

/-- C2 witness: the amended ordering at the all-success environment. -/
theorem export_file_event_ordering_witness :
    (generate_frames_impl envAllOk none).yields =
      [send_progress_update "Preprocessing" "Preparing image...",
       send_progress_update "Preprocessing" "Image processed.",
       send_progress_update "Rendering Video" "Starting asset generation.",
       send_progress_update "Rendering Video" "Cooking up a preliminary video...",
       send_file "VIDEOBYTES" "video/mp4" "preview.mp4",
       send_progress_update "Rendering Video" "Turntable video complete.",
       send_progress_update "Generating GLB" "Generating GLB mesh...",
       send_progress_update "Generating GLB" "GLB meshed.",
       send_file "GLBBYTES" "application/octet-stream" "output.glb",
       completeChunk, terminatorChunk] :=
  export_file_event_ordering envAllOk rfl rfl rfl rfl rfl rfl

/-- C5: when the fatal stages succeed, the video stage raises and the GLB
stage succeeds, the stream contains the Rendering Video error frame, still
runs the GLB stage, and still ends with the completion frame followed by the
terminator frame. -/
theorem video_failure_isolated (env : Env)
    (h1 : env.makedirsRaises = false) (h2 : env.openRaises = false)
    (h3 : (env.removeRaises && !(env.inputImage.mode == "RGBA")) = false)
    (h4 : env.pipeRunRaises = false)
    (h5 : env.renderRaises = true) (h6 : env.glbRaises = false) :
    (generate_frames_impl env none).yields =
      [send_progress_update "Preprocessing" "Preparing image...",
       send_progress_update "Preprocessing" "Image processed.",
       send_progress_update "Rendering Video" "Starting asset generation.",
       send_progress_update "Rendering Video" "Cooking up a preliminary video...",
       send_error_update "Rendering Video" ("Failed to render turntable video: " ++ env.renderMsg),
       send_progress_update "Generating GLB" "Generating GLB mesh...",
       send_progress_update "Generating GLB" "GLB meshed.",
       send_file env.glbBytes "application/octet-stream" "output.glb",
       completeChunk, terminatorChunk] := by
  have h := (generate_frames_trace env h1 h2 h3 h4).1
  rw [h, h5, h6]
  simp

/-- C5 witness: the isolated video failure at a concrete environment. -/
theorem video_failure_isolated_witness :
    (generate_frames_impl envVideoFail none).yields =
      [send_progress_update "Preprocessing" "Preparing image...",
       send_progress_update "Preprocessing" "Image processed.",
       send_progress_update "Rendering Video" "Starting asset generation.",
       send_progress_update "Rendering Video" "Cooking up a preliminary video...",
       send_error_update "Rendering Video" ("Failed to render turntable video: " ++ "render boom"),
       send_progress_update "Generating GLB" "Generating GLB mesh...",
       send_progress_update "Generating GLB" "GLB meshed.",
       send_file "GLBBYTES" "application/octet-stream" "output.glb",
       completeChunk, terminatorChunk] :=
  video_failure_isolated envVideoFail rfl rfl rfl rfl rfl rfl

/-- C9: when the fatal stages succeed and both export stages raise, the
stream still ends with the completion frame carrying All files generated,
preceded by the two error frames and by no file frame at all. -/
theorem complete_without_files (env : Env)
    (h1 : env.makedirsRaises = false) (h2 : env.openRaises = false)
    (h3 : (env.removeRaises && !(env.inputImage.mode == "RGBA")) = false)
    (h4 : env.pipeRunRaises = false)
    (h5 : env.renderRaises = true) (h6 : env.glbRaises = true) :
    (generate_frames_impl env none).yields =
      [send_progress_update "Preprocessing" "Preparing image...",
       send_progress_update "Preprocessing" "Image processed.",
       send_progress_update "Rendering Video" "Starting asset generation.",
       send_progress_update "Rendering Video" "Cooking up a preliminary video...",
       send_error_update "Rendering Video" ("Failed to render turntable video: " ++ env.renderMsg),
       send_progress_update "Generating GLB" "Generating GLB mesh...",
       send_error_update "Generating GLB" ("Failed to generate GLB mesh: " ++ env.glbMsg),
       completeChunk, terminatorChunk] := by
  have h := (generate_frames_trace env h1 h2 h3 h4).1
  rw [h, h5, h6]
  simp

/-- C9 witness: completion with zero file frames at a concrete environment
where both export stages raise. -/
theorem complete_without_files_witness :
    (generate_frames_impl envBothExportsFail none).yields =
      [send_progress_update "Preprocessing" "Preparing image...",
       send_progress_update "Preprocessing" "Image processed.",
       send_progress_update "Rendering Video" "Starting asset generation.",
       send_progress_update "Rendering Video" "Cooking up a preliminary video...",
       send_error_update "Rendering Video" ("Failed to render turntable video: " ++ "render boom"),
       send_progress_update "Generating GLB" "Generating GLB mesh...",
       send_error_update "Generating GLB" ("Failed to generate GLB mesh: " ++ "glb boom"),
       completeChunk, terminatorChunk] :=
  complete_without_files envBothExportsFail rfl rfl rfl rfl rfl rfl

/-- C1 (evaluation at the failing input): when the inference call raises, the
stream ends with the except-clause chunk, whose trailer is the uninterpolated
text between braces rather than the terminator frame; the exact terminator
frame bytes occur nowhere in the emitted stream. -/
theorem fatal_terminator_bytes_wrong :
    (generate_frames_impl envPipeFail none).yields.getLast? = some (fatalChunk "boom") ∧
    badTerminator.toList.isSuffixOf (fatalChunk "boom").toList = true ∧
    badTerminator ≠ terminatorChunk ∧
    ((generate_frames_impl envPipeFail none).yields.all
      (fun y => !(strContains y terminatorChunk))) = true := by
  refine ⟨rfl, by decide, by decide, by decide⟩

/-- C4 counterexample: with a valid upload whose workspace creation fails,
the /generate response is the streamed multipart response, already carrying a
Preprocessing progress frame emitted before workspace allocation, and the
failure is reported in-band by the Streaming error chunk, not by a pre-stream
HTTP error response. -/
theorem makedirs_failure_counterexample :
    generate true reqValid envMakedirsFail none =
      { response := GenResponse.stream
          { yields := [send_progress_update "Preprocessing" "Preparing image...",
                       fatalChunk "mkdir failed"],
            budget := none, dirCreated := false, dirExists := false, calls := [] },
        workspaceCreated := false, workspaceExistsAfter := false } := by
  rfl

/-- C4 amended: when workspace creation fails, no stage runs and pipe.run is
never called, but one Preprocessing progress frame has already been emitted
before the allocation attempt, and the failure is reported in-band on the
stream as the Streaming error chunk rather than as a pre-stream HTTP error
response. -/
theorem makedirs_failure_inband (env : Env) (h : env.makedirsRaises = true) :
    (generate_frames_impl env none).yields =
      [send_progress_update "Preprocessing" "Preparing image...",
       fatalChunk env.makedirsMsg] ∧
    (generate_frames_impl env none).calls = [] ∧
    (generate_frames_impl env none).dirCreated = false := by
  refine ⟨?_, ?_, ?_⟩ <;>
    simp [generate_frames_impl, genBody, emitChunk, runStep, handleFatal, runFinally, h]

/-- C4 witness: the amended behavior at a concrete failing environment. -/
theorem makedirs_failure_inband_witness :
    (generate_frames_impl envMakedirsFail none).yields =
      [send_progress_update "Preprocessing" "Preparing image...",
       fatalChunk "mkdir failed"] ∧
    (generate_frames_impl envMakedirsFail none).calls = [] ∧
    (generate_frames_impl envMakedirsFail none).dirCreated = false :=
  makedirs_failure_inband envMakedirsFail rfl

/-- C6 counterexample: a /generate_zip request whose video rendering raises
does not return a 200 archive missing the video entry; the exception escapes
the handler, so no archive at all is produced (the workspace is still
removed, and inference was called once). -/
theorem zip_video_failure_counterexample :
    generate_zip true reqValid envVideoFail =
      { outcome := ZipOutcome.unhandled "render boom", dirCreated := true, dirExists := false,
        calls := [({ mode := "RGBA", data := "pixels" }, 0)] } := by
  rfl

/-- C6 amended: in /generate_zip a video rendering failure is not isolated:
the exception propagates out of the handler (the framework turns it into an
error response), no archive is returned, the workspace is still cleaned up,
and the single inference call has already happened. -/
theorem zip_video_failure_unhandled (req : Request) (env : Env)
    (hr : (!req.hasFile || req.filename == "") = false) (hrr : req.readRaises = false)
    (h1 : env.makedirsRaises = false) (h2 : env.openRaises = false)
    (h3 : (env.removeRaises && !(env.inputImage.mode == "RGBA")) = false)
    (h4 : env.pipeRunRaises = false) (h5 : env.renderRaises = true) :
    generate_zip true req env =
      { outcome := ZipOutcome.unhandled env.renderMsg, dirCreated := true, dirExists := false,
        calls := [(preprocessedImage env, 0)] } := by
  simp [generate_zip, zipBody, zipFinally, hr, hrr, h1, h2, h3, h4, h5]

/-- C6 witness: the amended behavior at a concrete environment where both
export calls raise (the render call raises first). -/
theorem zip_video_failure_unhandled_witness :
    generate_zip true reqValid envBothExportsFail =
      { outcome := ZipOutcome.unhandled "render boom", dirCreated := true, dirExists := false,
        calls := [(preprocessedImage envBothExportsFail, 0)] } :=
  zip_video_failure_unhandled reqValid envBothExportsFail rfl rfl rfl rfl rfl rfl rfl

/-- C8: a /generate request whose form data has no file part or an empty
filename gets the 400 response with the single JSON error body for step
Initialization, and no workspace directory is created for it. -/
theorem no_file_returns_400 (req : Request) (env : Env) (budget : Option Nat)
    (h : req.hasFile = false ∨ req.filename = "") :
    generate true req env budget =
      { response := GenResponse.early 400 (pyDumps [("status", "error"), ("step", "Initialization"),
          ("message", "No image uploaded or filename empty. Please include a file in your request.")]),
        workspaceCreated := false, workspaceExistsAfter := false } := by
  have hcond : (!req.hasFile || req.filename == "") = true := by
    rcases h with h | h <;> simp [h]
  simp [generate, hcond]

/-- C8 witness: the 400 response at a concrete request with no file part. -/
theorem no_file_returns_400_witness :
    generate true reqNoFile envAllOk none =
      { response := GenResponse.early 400 (pyDumps [("status", "error"), ("step", "Initialization"),
          ("message", "No image uploaded or filename empty. Please include a file in your request.")]),
        workspaceCreated := false, workspaceExistsAfter := false } :=
  no_file_returns_400 reqNoFile envAllOk none (Or.inl rfl)

/-- The pipe.run call trace of a fully consumed /generate stream whenever the
request survives preprocessing: one call, at the preprocessed image, seed 0,
whether or not the inference call or any later stage raises. -/
theorem generate_frames_calls (env : Env)
    (h1 : env.makedirsRaises = false) (h2 : env.openRaises = false)
    (h3 : (env.removeRaises && !(env.inputImage.mode == "RGBA")) = false) :
    (generate_frames_impl env none).calls = [(preprocessedImage env, 0)] := by
  cases h4 : env.pipeRunRaises <;> cases h5 : env.renderRaises <;> cases h6 : env.glbRaises <;>
    simp [generate_frames_impl, genBody, videoBlock, glbBlock, emitChunk, runStep,
      handleFatal, runFinally, h1, h2, h3, h4, h5, h6]

/-- The pipe.run call trace of the /generate_zip try block whenever the
request survives preprocessing. -/
theorem zipBody_calls (env : Env) (h2 : env.openRaises = false)
    (h3 : (env.removeRaises && !(env.inputImage.mode == "RGBA")) = false) :
    (zipBody env).calls = [(preprocessedImage env, 0)] := by
  cases h4 : env.pipeRunRaises <;> cases h5 : env.renderRaises <;> cases h6 : env.glbRaises <;>
    simp [zipBody, h2, h3, h4, h5, h6]

/-- C10: for a request that survives preprocessing, both /generate (fully
consumed) and /generate_zip call the inference model exactly once, with the
preprocessed image and the literal seed 0; and two requests carrying the same
preprocessed image issue identical inference call lists on both endpoints. -/
theorem inference_called_once_fixed_seed (req : Request) (env env' : Env)
    (hr : (!req.hasFile || req.filename == "") = false) (hrr : req.readRaises = false)
    (h1 : env.makedirsRaises = false) (h2 : env.openRaises = false)
    (h3 : (env.removeRaises && !(env.inputImage.mode == "RGBA")) = false)
    (h1' : env'.makedirsRaises = false) (h2' : env'.openRaises = false)
    (h3' : (env'.removeRaises && !(env'.inputImage.mode == "RGBA")) = false)
    (hsame : preprocessedImage env = preprocessedImage env') :
    (generate_frames_impl env none).calls = [(preprocessedImage env, 0)] ∧
    (generate_zip true req env).calls = [(preprocessedImage env, 0)] ∧
    (generate_frames_impl env none).calls = (generate_frames_impl env' none).calls ∧
    (generate_zip true req env).calls = (generate_zip true req env').calls := by
  have z1 : (generate_zip true req env).calls = (zipBody env).calls := by
    simp [generate_zip, zipFinally, hr, hrr, h1]
  have z2 : (generate_zip true req env').calls = (zipBody env').calls := by
    simp [generate_zip, zipFinally, hr, hrr, h1']
  refine ⟨generate_frames_calls env h1 h2 h3, ?_, ?_, ?_⟩
  · rw [z1, zipBody_calls env h2 h3]
  · rw [generate_frames_calls env h1 h2 h3, generate_frames_calls env' h1' h2' h3', hsame]
  · rw [z1, zipBody_calls env h2 h3, z2, zipBody_calls env' h2' h3', hsame]

/-- C10 witness: two concrete environments differing only in whether video
rendering raises carry the same preprocessed image and issue identical single
inference calls with seed 0 on both endpoints. -/
theorem inference_called_once_fixed_seed_witness :
    (generate_frames_impl envAllOk none).calls = [(preprocessedImage envAllOk, 0)] ∧
    (generate_zip true reqValid envAllOk).calls = [(preprocessedImage envAllOk, 0)] ∧
    (generate_frames_impl envAllOk none).calls = (generate_frames_impl envVideoFail none).calls ∧
    (generate_zip true reqValid envAllOk).calls = (generate_zip true reqValid envVideoFail).calls :=
  inference_called_once_fixed_seed reqValid envAllOk envVideoFail
    rfl rfl rfl rfl rfl rfl rfl rfl rfl

/-! Helper lemmas for the chunk classification invariant. -/

theorem okChunk_progress (s m : String) : okChunk (send_progress_update s m) :=
  Or.inl ⟨s, m, rfl⟩

theorem okChunk_error (s m : String) : okChunk (send_error_update s m) :=
  Or.inr (Or.inl ⟨s, m, rfl⟩)

theorem okChunk_complete : okChunk completeChunk :=
  Or.inr (Or.inr (Or.inl rfl))

theorem okChunk_fatal (m : String) : okChunk (fatalChunk m) :=
  Or.inr (Or.inr (Or.inr (Or.inl
    ⟨"Unhandled exception during generation: " ++ m, rfl⟩)))

theorem okChunk_file (b mt f : String) : okChunk (send_file b mt f) :=
  Or.inr (Or.inr (Or.inr (Or.inr (Or.inl ⟨b, mt, f, rfl⟩))))

theorem okChunk_term : okChunk terminatorChunk :=
  Or.inr (Or.inr (Or.inr (Or.inr (Or.inr rfl))))

theorem yieldsOk_append {s : GenState} {c : String} (hs : yieldsOk s) (hc : okChunk c) :
    ∀ y ∈ s.yields ++ [c], okChunk y := by
  intro y hy
  rcases List.mem_append.mp hy with h | h
  · exact hs y h
  · rw [List.mem_singleton.mp h]
    exact hc

theorem yieldsOk_emit {s : GenState} {c : String} (hs : yieldsOk s) (hc : okChunk c) :
    yieldsOk (emitChunk s c).1 := by
  cases hb : s.budget with
  | none =>
    simp only [emitChunk, hb]
    exact yieldsOk_append hs hc
  | some n =>
    cases n with
    | zero =>
      simp only [emitChunk, hb]
      exact hs
    | succ k =>
      simp only [emitChunk, hb]
      split
      · exact yieldsOk_append hs hc
      · exact yieldsOk_append hs hc

theorem yieldsOk_runStep {r : GenState × Option PyExit} {f : GenState → GenState × Option PyExit}
    (hr : yieldsOk r.1) (hf : ∀ s, yieldsOk s → yieldsOk (f s).1) :
    yieldsOk (runStep r f).1 := by
  obtain ⟨s, e⟩ := r
  cases e with
  | none => exact hf s hr
  | some e => exact hr

theorem yieldsOk_videoBlock (env : Env) {s : GenState} (hs : yieldsOk s) :
    yieldsOk (videoBlock env s).1 := by
  unfold videoBlock
  split
  · exact yieldsOk_emit hs (okChunk_error _ _)
  · exact yieldsOk_runStep (yieldsOk_emit hs (okChunk_file _ _ _))
      fun s2 hs2 => yieldsOk_emit hs2 (okChunk_progress _ _)

theorem yieldsOk_glbBlock (env : Env) {s : GenState} (hs : yieldsOk s) :
    yieldsOk (glbBlock env s).1 := by
  unfold glbBlock
  split
  · exact yieldsOk_emit hs (okChunk_error _ _)
  · exact yieldsOk_runStep (yieldsOk_emit hs (okChunk_progress _ _))
      fun s2 hs2 => yieldsOk_emit hs2 (okChunk_file _ _ _)

theorem yieldsOk_genBody (env : Env) {s : GenState} (hs : yieldsOk s) :
    yieldsOk (genBody env s).1 := by
  unfold genBody
  refine yieldsOk_runStep (yieldsOk_emit hs (okChunk_progress _ _)) fun s hs => ?_
  refine yieldsOk_runStep ?_ fun s hs => ?_
  · split
    · exact hs
    · exact hs
  refine yieldsOk_runStep ?_ fun s hs => ?_
  · split
    · exact hs
    · exact hs
  refine yieldsOk_runStep ?_ fun s hs => ?_
  · split
    · exact hs
    · exact hs
  refine yieldsOk_runStep (yieldsOk_emit hs (okChunk_progress _ _)) fun s hs => ?_
  refine yieldsOk_runStep (yieldsOk_emit hs (okChunk_progress _ _)) fun s hs => ?_
  refine yieldsOk_runStep ?_ fun s hs => ?_
  · split
    · exact hs
    · exact hs
  refine yieldsOk_runStep (yieldsOk_emit hs (okChunk_progress _ _)) fun s hs => ?_
  refine yieldsOk_runStep (yieldsOk_videoBlock env hs) fun s hs => ?_
  refine yieldsOk_runStep (yieldsOk_emit hs (okChunk_progress _ _)) fun s hs => ?_
  refine yieldsOk_runStep (yieldsOk_glbBlock env hs) fun s hs => ?_
  refine yieldsOk_runStep (yieldsOk_emit hs okChunk_complete) fun s hs => ?_
  exact yieldsOk_emit hs okChunk_term

theorem yieldsOk_handleFatal (r : GenState × Option PyExit) (hr : yieldsOk r.1) :
    yieldsOk (handleFatal r) := by
  obtain ⟨s, e⟩ := r
  cases e with
  | none => exact hr
  | some e =>
    cases e with
    | exc m => exact yieldsOk_emit hr (okChunk_fatal m)
    | genExit => exact hr

theorem yieldsOk_runFinally {s : GenState} (hs : yieldsOk s) : yieldsOk (runFinally s) := by
  unfold runFinally
  split
  · exact hs
  · exact hs

/-- C7: every chunk of every /generate stream, under any environment and any
consumer budget, is a JSON event frame whose payload object has one of the
documented shapes (status progress or error with a step and a message, status
complete with a message and no step, or the Streaming error frame with its
trailer), a file frame, or the terminator frame. -/
theorem generate_stream_chunk_shapes (env : Env) (budget : Option Nat) :
    ∀ y ∈ (generate_frames_impl env budget).yields, okChunk y := by
  unfold generate_frames_impl
  exact yieldsOk_runFinally (yieldsOk_handleFatal _
    (yieldsOk_genBody env fun y hy => absurd hy (List.not_mem_nil y)))

/-- C7 witness: the first chunk of the all-success stream is classified. -/
theorem generate_stream_chunk_shapes_witness :
    okChunk (send_progress_update "Preprocessing" "Preparing image...") :=
  generate_stream_chunk_shapes envAllOk none _ (List.Mem.head _)
